import Mathlib

/-!
Verification of the quota-enforcement and LLM usage-accounting subsystem of
the tochenAI backend (src/backend/app/crud.py and src/backend/app/utils.py).

The database-backed state is embedded as an explicit `DB` value holding the
user table and the LLM usage ledger.  SQLModel `session.get(User, user_id)`
(lookup by primary key) is embedded as a first-match lookup over the user
list; committing a mutation of the fetched row is embedded as rewriting that
row in place.  Python float cost arithmetic is embedded over `ℚ` (the token
counts and price-table entries involved are exact in this range).
-/

/-- Embedding of the accounting-relevant columns of the `User` model
(src/backend/app/models.py, class `UserBase`/`User`): `is_superuser`,
`quota`, `usage_count`, plus the primary key. -/
structure User where
  id : Nat
  is_superuser : Bool
  quota : Int
  usage_count : Int
  deriving Repr, DecidableEq

/-- Embedding of an `LLMUsage` row (src/backend/app/models.py, class
`LLMUsageBase`/`LLMUsage`): owning user, provider, model, token counts,
cost, request type, success flag and optional error message. -/
structure LLMUsage where
  user_id : Nat
  provider : String
  model : String
  prompt_tokens : Int
  completion_tokens : Int
  total_tokens : Int
  cost_usd : ℚ
  request_type : String
  success : Bool
  error_message : Option String
  deriving Repr, DecidableEq

/-- The backing store: the user table and the append-only usage ledger. -/
structure DB where
  users : List User
  llm_usage : List LLMUsage
  deriving Repr, DecidableEq

/-- `session.get(User, user_id)`: fetch the row with the given primary key
(first match in the embedded table). -/
def getUser (db : DB) (user_id : Nat) : Option User :=
  db.users.find? (fun u => u.id == user_id)

/-- Rewriting the fetched row in place: apply `f` to the first row whose id
matches, leave everything else untouched.  This embeds mutating the object
returned by `session.get` and committing. -/
def updateFirst (users : List User) (user_id : Nat) (f : User → User) : List User :=
  match users with
  | [] => []
  | u :: rest => if u.id == user_id then f u :: rest else u :: updateFirst rest user_id f

/-- Embedding of `crud.check_user_quota` (src/backend/app/crud.py:47-54):
missing user fails closed, superusers always pass, otherwise pass iff
`usage_count < quota`.  It is a pure read: the embedding returns only a
`Bool` and takes the state by value, matching the absence of writes in the
source. -/
def check_user_quota (db : DB) (user_id : Nat) : Bool :=
  match getUser db user_id with
  | none => false
  | some u => if u.is_superuser then true else decide (u.usage_count < u.quota)

/-- Embedding of `crud.increment_user_usage` (src/backend/app/crud.py:35-44):
fetch the user, return `false` (state unchanged) when missing, otherwise
add 1 to `usage_count` and commit. -/
def increment_user_usage (db : DB) (user_id : Nat) : Bool × DB :=
  match getUser db user_id with
  | none => (false, db)
  | some _ =>
      let users1 := updateFirst db.users user_id
        (fun u => { u with usage_count := u.usage_count + 1 })
      (true, { db with users := users1 })

/-- Embedding of the static price table `LLM_COSTS`
(src/backend/app/utils.py:207-223), per-1K-token (input, output) USD prices
keyed by provider then model. -/
def LLM_COSTS : List (String × List (String × (ℚ × ℚ))) :=
  [ ("openai",
      [ ("gpt-4", (0.03, 0.06))
      , ("gpt-3.5-turbo", (0.0015, 0.002))
      , ("gpt-4o", (0.005, 0.015)) ])
  , ("anthropic",
      [ ("claude-3-opus", (0.015, 0.075))
      , ("claude-3-sonnet", (0.003, 0.015))
      , ("claude-3-haiku", (0.00025, 0.00125)) ])
  , ("gemini",
      [ ("gemini-1.5-flash", (0.000075, 0.0003))
      , ("gemini-1.5-pro", (0.00375, 0.015))
      , ("gemini-1.0-pro", (0.0005, 0.0015)) ]) ]

/-- Price-table lookup, embedding
`provider in LLM_COSTS and model in LLM_COSTS[provider]` followed by
`LLM_COSTS[provider][model]`. -/
def lookupCost (provider model : String) : Option (ℚ × ℚ) :=
  (List.lookup provider LLM_COSTS).bind (fun t => List.lookup model t)

/-- Embedding of `utils.calculate_llm_cost` (src/backend/app/utils.py:226-234):
unknown (provider, model) pairs cost 0.0, otherwise
`prompt_tokens/1000 * input + completion_tokens/1000 * output` (Python `/`
is exact division, embedded in `ℚ`). -/
def calculate_llm_cost (provider model : String)
    (prompt_tokens completion_tokens : Int) : ℚ :=
  match lookupCost provider model with
  | none => 0
  | some costs =>
      (prompt_tokens : ℚ) / 1000 * costs.1 + (completion_tokens : ℚ) / 1000 * costs.2

/-- Embedding of `crud.create_llm_usage` (src/backend/app/crud.py:70-76):
append the new row to the ledger.  The row is built by the caller. -/
def create_llm_usage (db : DB) (rec : LLMUsage) : DB :=
  { db with llm_usage := db.llm_usage ++ [rec] }

/-- Embedding of `utils.enforce_quota_and_track_usage`
(src/backend/app/utils.py:237-279), the accounting orchestrator (`track`):
quota gate first (deny returns `false` with no writes), then compute
`total_tokens` and cost, append one ledger row, and increment `usage_count`
only when `success` is true; returns `true`. -/
def enforce_quota_and_track_usage (db : DB) (user_id : Nat)
    (provider model request_type : String)
    (prompt_tokens completion_tokens : Int)
    (success : Bool) (error_message : Option String) : Bool × DB :=
  if check_user_quota db user_id then
    let total_tokens := prompt_tokens + completion_tokens
    let cost_usd := calculate_llm_cost provider model prompt_tokens completion_tokens
    let db1 := create_llm_usage db
      { user_id := user_id
      , provider := provider
      , model := model
      , prompt_tokens := prompt_tokens
      , completion_tokens := completion_tokens
      , total_tokens := total_tokens
      , cost_usd := cost_usd
      , request_type := request_type
      , success := success
      , error_message := error_message }
    let db2 := if success then (increment_user_usage db1 user_id).2 else db1
    (true, db2)
  else
    (false, db)

/-- The arguments of one `track` call. -/
structure TrackCall where
  user_id : Nat
  provider : String
  model : String
  request_type : String
  prompt_tokens : Int
  completion_tokens : Int
  success : Bool
  error_message : Option String
  deriving Repr, DecidableEq

/-- State effect of one `track` call. -/
def runTrack (db : DB) (c : TrackCall) : DB :=
  (enforce_quota_and_track_usage db c.user_id c.provider c.model c.request_type
    c.prompt_tokens c.completion_tokens c.success c.error_message).2

/-- State effect of a single-threaded sequence of `track` calls. -/
def runTracks (db : DB) (cs : List TrackCall) : DB :=
  cs.foldl runTrack db

/-- The per-user quota invariant: every non-superuser row satisfies
`usage_count ≤ quota`. -/
def quotaInv (db : DB) : Prop :=
  ∀ u ∈ db.users, u.is_superuser = false → u.usage_count ≤ u.quota

instance : DecidablePred quotaInv := fun db =>
  inferInstanceAs (Decidable (∀ u ∈ db.users, u.is_superuser = false → u.usage_count ≤ u.quota))

/-- `GROUP BY tag / COUNT` over a column, embedding the grouped count
queries of the summary aggregator: one entry per distinct tag value with its
occurrence count. -/
def groupCounts (l : List String) : List (String × Nat) :=
  l.eraseDups.map (fun s => (s, l.count s))

/-- Embedding of the `LLMUsageSummary` model
(src/backend/app/models.py, class `LLMUsageSummary`). -/
structure LLMUsageSummary where
  total_requests : Nat
  total_tokens : Int
  total_cost_usd : ℚ
  requests_by_provider : List (String × Nat)
  requests_by_type : List (String × Nat)
  deriving Repr, DecidableEq

/-- Embedding of `crud.get_user_llm_usage_summary`
(src/backend/app/crud.py:79-118): over the user's ledger rows, the row
count, the sums of `total_tokens` and `cost_usd` (SQL `SUM` of an empty set
is `NULL`, coerced to 0 by `or 0` — the empty list sum), and the two grouped
counts. -/
def get_user_llm_usage_summary (db : DB) (user_id : Nat) : LLMUsageSummary :=
  let recs := db.llm_usage.filter (fun r => r.user_id == user_id)
  { total_requests := recs.length
  , total_tokens := (recs.map (fun r => r.total_tokens)).sum
  , total_cost_usd := (recs.map (fun r => r.cost_usd)).sum
  , requests_by_provider := groupCounts (recs.map (fun r => r.provider))
  , requests_by_type := groupCounts (recs.map (fun r => r.request_type)) }

/-- The sum of `total_tokens` over the ledger rows owned by one user,
written as direct recursion over the ledger (the spec's round-trip side). -/
def userTotalTokens : List LLMUsage → Nat → Int
  | [], _ => 0
  | r :: rest, user_id =>
      (if r.user_id = user_id then r.total_tokens else 0) + userTotalTokens rest user_id

/-- The data a successfully parsed provider HTTP response contributes to
`generate_content`: the content string and the token counts reported in the
response's usage block. -/
structure LLMResponse where
  content : String
  prompt_tokens : Int
  completion_tokens : Int
  deriving Repr, DecidableEq

/-- Embedding of `OpenAIClient.generate_content`
(src/backend/app/utils.py:313-362) on the path where the external call
succeeds and parses: the HTTP exchange is abstracted into the `LLMResponse`
input.  The client calls `track` with `success=True`, discards its boolean,
and returns (content, tokens_used, cost_usd) together with whatever state
`track` left behind. -/
def OpenAIClient_generate_content (db : DB) (user_id : Nat) (model : String)
    (resp : LLMResponse) : (String × Int × ℚ) × DB :=
  let tracked := enforce_quota_and_track_usage db user_id "openai" model
    "content_generation" resp.prompt_tokens resp.completion_tokens true none
  ( ( resp.content
    , resp.prompt_tokens + resp.completion_tokens
    , calculate_llm_cost "openai" model resp.prompt_tokens resp.completion_tokens )
  , tracked.2 )

/-- Embedding of `AnthropicClient.generate_content`
(src/backend/app/utils.py:373-423) on the successful-call path; identical in
structure to the OpenAI client with provider `"anthropic"`. -/
def AnthropicClient_generate_content (db : DB) (user_id : Nat) (model : String)
    (resp : LLMResponse) : (String × Int × ℚ) × DB :=
  let tracked := enforce_quota_and_track_usage db user_id "anthropic" model
    "content_generation" resp.prompt_tokens resp.completion_tokens true none
  ( ( resp.content
    , resp.prompt_tokens + resp.completion_tokens
    , calculate_llm_cost "anthropic" model resp.prompt_tokens resp.completion_tokens )
  , tracked.2 )

/-- `estimated_tokens = len(prompt + content) // 4` of the Gemini client
(src/backend/app/utils.py:465). -/
def geminiEstimate (prompt content : String) : Nat :=
  (prompt ++ content).length / 4

/-- Embedding of `GeminiClient.generate_content`
(src/backend/app/utils.py:434-494) on the successful-call path: token usage
is estimated from the character length of prompt plus content, split evenly
between prompt and completion; `track` is called with `success=True` and its
boolean discarded. -/
def GeminiClient_generate_content (db : DB) (user_id : Nat) (model : String)
    (prompt content : String) : (String × Int × ℚ) × DB :=
  let est := geminiEstimate prompt content
  let tracked := enforce_quota_and_track_usage db user_id "gemini" model
    "content_generation" (est / 2 : Nat) (est / 2 : Nat) true none
  ( ( content
    , (est : Int)
    , calculate_llm_cost "gemini" model (est / 2 : Nat) (est / 2 : Nat) )
  , tracked.2 )

/-! ## Helper lemmas -/

lemma check_user_quota_eq_true (db : DB) (user_id : Nat) :
    check_user_quota db user_id = true ↔
      ∃ u, getUser db user_id = some u ∧
        (u.is_superuser = true ∨ u.usage_count < u.quota) := by
  unfold check_user_quota
  cases h : getUser db user_id with
  | none => simp
  | some u => by_cases hs : u.is_superuser <;> simp [hs]

lemma forall_mem_updateFirst (P : User → Prop) (l : List User) (user_id : Nat)
    (f : User → User)
    (hl : ∀ u ∈ l, P u)
    (hf : ∀ u, l.find? (fun x => x.id == user_id) = some u → P (f u)) :
    ∀ v ∈ updateFirst l user_id f, P v := by
  induction l with
  | nil => intro v hv; simp [updateFirst] at hv
  | cons u rest ih =>
      intro v hv
      by_cases h : (u.id == user_id) = true
      · rw [updateFirst, if_pos h] at hv
        rcases List.mem_cons.mp hv with hv | hv
        · subst hv
          exact hf u (by simp [List.find?_cons, h])
        · exact hl v (List.mem_cons_of_mem _ hv)
      · rw [updateFirst, if_neg h] at hv
        rcases List.mem_cons.mp hv with hv | hv
        · subst hv; exact hl v (List.mem_cons_self _ _)
        · exact ih (fun x hx => hl x (List.mem_cons_of_mem _ hx))
            (fun x hx => hf x (by simp [List.find?_cons, h]; exact hx))
            v hv

lemma find?_updateFirst (l : List User) (user_id : Nat) (f : User → User)
    (hf : ∀ u, (f u).id = u.id) :
    (updateFirst l user_id f).find? (fun x => x.id == user_id) =
      (l.find? (fun x => x.id == user_id)).map f := by
  induction l with
  | nil => rfl
  | cons u rest ih =>
      by_cases h : (u.id == user_id) = true
      · rw [updateFirst, if_pos h]
        simp [List.find?_cons, h, hf u]
      · rw [updateFirst, if_neg h]
        simp [List.find?_cons, h, ih]

lemma find?_updateFirst_ne (l : List User) (uid uid2 : Nat) (f : User → User)
    (hf : ∀ u, (f u).id = u.id) (hne : uid ≠ uid2) :
    (updateFirst l uid2 f).find? (fun x => x.id == uid) =
      l.find? (fun x => x.id == uid) := by
  induction l with
  | nil => rfl
  | cons u rest ih =>
      by_cases h : (u.id == uid2) = true
      · have hu : u.id = uid2 := by simpa using h
        rw [updateFirst, if_pos h]
        simp [List.find?_cons, hf u, hu, Ne.symm hne]
      · rw [updateFirst, if_neg h]
        by_cases h3 : (u.id == uid) = true <;>
          simp [List.find?_cons, h3, ih]

lemma track_gate_passed_eq (db : DB) (user_id : Nat)
    (provider model request_type : String) (prompt_tokens completion_tokens : Int)
    (success : Bool) (error_message : Option String)
    (hq : check_user_quota db user_id = true) :
    enforce_quota_and_track_usage db user_id provider model request_type
      prompt_tokens completion_tokens success error_message =
      (true,
        { users := if success then
            updateFirst db.users user_id
              (fun v => { v with usage_count := v.usage_count + 1 })
          else db.users
        , llm_usage := db.llm_usage ++
            [{ user_id := user_id, provider := provider, model := model
             , prompt_tokens := prompt_tokens, completion_tokens := completion_tokens
             , total_tokens := prompt_tokens + completion_tokens
             , cost_usd := calculate_llm_cost provider model prompt_tokens completion_tokens
             , request_type := request_type, success := success
             , error_message := error_message }] }) := by
  obtain ⟨u, hu, -⟩ := (check_user_quota_eq_true db user_id).mp hq
  have hu2 : db.users.find? (fun x => x.id == user_id) = some u := hu
  cases success <;>
    simp [enforce_quota_and_track_usage, hq, create_llm_usage,
      increment_user_usage, getUser, hu2]

/-! ## Example states used by witnesses and counterexamples -/

/-- A non-superuser with quota remaining. -/
def userFresh : User := { id := 0, is_superuser := false, quota := 2, usage_count := 0 }

/-- A superuser. -/
def userSup : User := { id := 1, is_superuser := true, quota := 0, usage_count := 5 }

/-- A non-superuser who has exhausted their quota. -/
def userFull : User := { id := 2, is_superuser := false, quota := 1, usage_count := 1 }

/-- A small user table with an empty ledger. -/
def dbEx : DB := { users := [userFresh, userSup, userFull], llm_usage := [] }

/-- A successful gpt-4 `track` call by the fresh user. -/
def callEx : TrackCall :=
  { user_id := 0, provider := "openai", model := "gpt-4"
  , request_type := "content_generation", prompt_tokens := 100
  , completion_tokens := 50, success := true, error_message := none }

/-! ## Claims -/

/-- C6: `check_user_quota` is a pure read (its embedding consumes the state
and returns only a `Bool`, and the source performs no writes) that fails
closed when the user is missing, always passes a superuser, and passes a
non-superuser exactly when `usage_count < quota`. -/
theorem check_user_quota_correct (db : DB) (user_id : Nat) :
    (getUser db user_id = none → check_user_quota db user_id = false) ∧
    (∀ u, getUser db user_id = some u → u.is_superuser = true →
      check_user_quota db user_id = true) ∧
    (∀ u, getUser db user_id = some u → u.is_superuser = false →
      (check_user_quota db user_id = true ↔ u.usage_count < u.quota)) := by
  refine ⟨fun h => ?_, fun u hu hs => ?_, fun u hu hs => ?_⟩ <;>
    simp [check_user_quota, *]

/-- Witness for C6 on a concrete table: a missing id fails, the superuser
passes, and the fresh non-superuser's gate is equivalent to the count/quota
comparison. -/
theorem check_user_quota_correct_witness :
    check_user_quota dbEx 7 = false ∧
    check_user_quota dbEx 1 = true ∧
    (check_user_quota dbEx 0 = true ↔ userFresh.usage_count < userFresh.quota) :=
  ⟨(check_user_quota_correct dbEx 7).1 (by decide),
   (check_user_quota_correct dbEx 1).2.1 userSup (by decide) (by decide),
   (check_user_quota_correct dbEx 0).2.2 userFresh (by decide) (by decide)⟩

/-- C7: `calculate_llm_cost` returns 0 for any (provider, model) pair
missing from the static price table, and otherwise
`prompt_tokens/1000 * input + completion_tokens/1000 * output`; the table
prices 100 prompt and 50 completion tokens on openai/gpt-4 at 0.006 USD. -/
theorem calculate_llm_cost_correct :
    (∀ provider model prompt_tokens completion_tokens,
      lookupCost provider model = none →
        calculate_llm_cost provider model prompt_tokens completion_tokens = 0) ∧
    (∀ provider model prompt_tokens completion_tokens inp outp,
      lookupCost provider model = some (inp, outp) →
        calculate_llm_cost provider model prompt_tokens completion_tokens =
          (prompt_tokens : ℚ) / 1000 * inp + (completion_tokens : ℚ) / 1000 * outp) ∧
    calculate_llm_cost "openai" "gpt-4" 100 50 = 0.006 := by
  refine ⟨fun p m pt ct h => ?_, fun p m pt ct inp outp h => ?_, ?_⟩
  · simp [calculate_llm_cost, h]
  · simp [calculate_llm_cost, h]
  · norm_num [calculate_llm_cost, lookupCost, LLM_COSTS, List.lookup]

/-- Witness for C7: an unpriced pair costs 0 and a priced pair follows the
formula, at concrete inputs. -/
theorem calculate_llm_cost_correct_witness :
    calculate_llm_cost "mistral" "large" 100 50 = 0 ∧
    calculate_llm_cost "openai" "gpt-4o" 1000 2000 =
      (1000 : ℚ) / 1000 * 0.005 + (2000 : ℚ) / 1000 * 0.015 :=
  ⟨calculate_llm_cost_correct.1 "mistral" "large" 100 50 rfl,
   calculate_llm_cost_correct.2.1 "openai" "gpt-4o" 1000 2000 0.005 0.015 rfl⟩

/-- C2: when the quota gate denies (`check_user_quota` false: non-superuser
at or over quota, or user not found), `track` returns `false` and the state
is untouched — no ledger row, no counter change — whatever the success flag
and token counts were. -/
theorem track_denied_is_noop (db : DB) (user_id : Nat)
    (provider model request_type : String) (prompt_tokens completion_tokens : Int)
    (success : Bool) (error_message : Option String)
    (h : check_user_quota db user_id = false) :
    enforce_quota_and_track_usage db user_id provider model request_type
      prompt_tokens completion_tokens success error_message = (false, db) := by
  simp [enforce_quota_and_track_usage, h]

/-- Witness for C2: the exhausted user's call is denied and the state is
returned unchanged. -/
theorem track_denied_is_noop_witness :
    check_user_quota dbEx 2 = false ∧
    enforce_quota_and_track_usage dbEx 2 "openai" "gpt-4" "content_generation"
      100 50 true none = (false, dbEx) :=
  ⟨by decide,
   track_denied_is_noop dbEx 2 "openai" "gpt-4" "content_generation"
     100 50 true none (by decide)⟩

/-- C3: a successful `track` call by a user who passes the quota gate
returns `true`, appends exactly one ledger row carrying the supplied fields
with `total_tokens` the sum of the token counts and the computed cost, and
raises that user's `usage_count` by exactly 1. -/
theorem track_success_appends_and_increments (db : DB) (user_id : Nat)
    (provider model request_type : String) (prompt_tokens completion_tokens : Int)
    (error_message : Option String) (u : User)
    (hu : getUser db user_id = some u)
    (hq : check_user_quota db user_id = true) :
    (enforce_quota_and_track_usage db user_id provider model request_type
      prompt_tokens completion_tokens true error_message).1 = true ∧
    (enforce_quota_and_track_usage db user_id provider model request_type
      prompt_tokens completion_tokens true error_message).2.llm_usage =
      db.llm_usage ++
        [{ user_id := user_id, provider := provider, model := model
         , prompt_tokens := prompt_tokens, completion_tokens := completion_tokens
         , total_tokens := prompt_tokens + completion_tokens
         , cost_usd := calculate_llm_cost provider model prompt_tokens completion_tokens
         , request_type := request_type, success := true
         , error_message := error_message }] ∧
    getUser (enforce_quota_and_track_usage db user_id provider model request_type
      prompt_tokens completion_tokens true error_message).2 user_id =
      some { u with usage_count := u.usage_count + 1 } := by
  have key := track_gate_passed_eq db user_id provider model request_type
    prompt_tokens completion_tokens true error_message hq
  rw [key]
  refine ⟨rfl, rfl, ?_⟩
  have hu2 : db.users.find? (fun x => x.id == user_id) = some u := hu
  show (updateFirst db.users user_id
      (fun v => { v with usage_count := v.usage_count + 1 })).find?
      (fun x => x.id == user_id) = some { u with usage_count := u.usage_count + 1 }
  rw [find?_updateFirst db.users user_id
    (fun v => { v with usage_count := v.usage_count + 1 }) (fun v => rfl), hu2]
  rfl

/-- Witness for C3 at a concrete state: the fresh user's successful gpt-4
call appends the expected row and bumps the count from 0 to 1. -/
theorem track_success_appends_and_increments_witness :
    (enforce_quota_and_track_usage dbEx 0 "openai" "gpt-4" "content_generation"
      100 50 true none).1 = true ∧
    (enforce_quota_and_track_usage dbEx 0 "openai" "gpt-4" "content_generation"
      100 50 true none).2.llm_usage =
      dbEx.llm_usage ++
        [{ user_id := 0, provider := "openai", model := "gpt-4"
         , prompt_tokens := 100, completion_tokens := 50
         , total_tokens := 100 + 50
         , cost_usd := calculate_llm_cost "openai" "gpt-4" 100 50
         , request_type := "content_generation", success := true
         , error_message := none }] ∧
    getUser (enforce_quota_and_track_usage dbEx 0 "openai" "gpt-4"
      "content_generation" 100 50 true none).2 0 =
      some { userFresh with usage_count := userFresh.usage_count + 1 } :=
  track_success_appends_and_increments dbEx 0 "openai" "gpt-4"
    "content_generation" 100 50 none userFresh (by decide) (by decide)

/-- C4 counterexample: the claim quantifies over every `success=false` call,
but the quota gate runs first, so a failed call by a user already at quota
appends no ledger row at all: `track(success=false, errorMessage="timeout")`
for the exhausted user returns `false` and leaves the state (ledger length
0) untouched, contradicting "exactly one UsageRecord is appended" /
"always appends a record". -/
theorem track_failed_denied_counterexample :
    enforce_quota_and_track_usage dbEx 2 "openai" "gpt-4" "content_generation"
      0 0 false (some "timeout") = (false, dbEx) ∧
    dbEx.llm_usage.length = 0 := by decide

/-- C4 amended: for every `track` call with `success=false` by a user who
passes the quota gate, exactly one ledger row is appended, carrying the
supplied error message and `success=false`, and the user table (hence every
`usage_count`) is unchanged; with zero token counts the recorded cost is 0
for every provider and model. -/
theorem track_failed_records_without_consuming (db : DB) (user_id : Nat)
    (provider model request_type : String) (prompt_tokens completion_tokens : Int)
    (error_message : Option String)
    (hq : check_user_quota db user_id = true) :
    (enforce_quota_and_track_usage db user_id provider model request_type
      prompt_tokens completion_tokens false error_message).1 = true ∧
    (enforce_quota_and_track_usage db user_id provider model request_type
      prompt_tokens completion_tokens false error_message).2.llm_usage =
      db.llm_usage ++
        [{ user_id := user_id, provider := provider, model := model
         , prompt_tokens := prompt_tokens, completion_tokens := completion_tokens
         , total_tokens := prompt_tokens + completion_tokens
         , cost_usd := calculate_llm_cost provider model prompt_tokens completion_tokens
         , request_type := request_type, success := false
         , error_message := error_message }] ∧
    (enforce_quota_and_track_usage db user_id provider model request_type
      prompt_tokens completion_tokens false error_message).2.users = db.users ∧
    (∀ p m, calculate_llm_cost p m 0 0 = 0) := by
  have key := track_gate_passed_eq db user_id provider model request_type
    prompt_tokens completion_tokens false error_message hq
  rw [key]
  refine ⟨rfl, rfl, rfl, fun p m => ?_⟩
  unfold calculate_llm_cost
  cases lookupCost p m <;> simp

/-- Witness for the amended C4: the fresh user's failed "timeout" call with
zero tokens appends one failed row and leaves the user table alone. -/
theorem track_failed_records_without_consuming_witness :
    (enforce_quota_and_track_usage dbEx 0 "openai" "gpt-4" "content_generation"
      0 0 false (some "timeout")).1 = true ∧
    (enforce_quota_and_track_usage dbEx 0 "openai" "gpt-4" "content_generation"
      0 0 false (some "timeout")).2.llm_usage =
      dbEx.llm_usage ++
        [{ user_id := 0, provider := "openai", model := "gpt-4"
         , prompt_tokens := 0, completion_tokens := 0
         , total_tokens := 0 + 0
         , cost_usd := calculate_llm_cost "openai" "gpt-4" 0 0
         , request_type := "content_generation", success := false
         , error_message := some "timeout" }] ∧
    (enforce_quota_and_track_usage dbEx 0 "openai" "gpt-4" "content_generation"
      0 0 false (some "timeout")).2.users = dbEx.users ∧
    (∀ p m, calculate_llm_cost p m 0 0 = 0) :=
  track_failed_records_without_consuming dbEx 0 "openai" "gpt-4"
    "content_generation" 0 0 (some "timeout") (by decide)

lemma runTrack_gate_passed (db : DB) (c : TrackCall)
    (hq : check_user_quota db c.user_id = true) :
    runTrack db c =
      { users := if c.success then
          updateFirst db.users c.user_id
            (fun v => { v with usage_count := v.usage_count + 1 })
        else db.users
      , llm_usage := db.llm_usage ++
          [{ user_id := c.user_id, provider := c.provider, model := c.model
           , prompt_tokens := c.prompt_tokens, completion_tokens := c.completion_tokens
           , total_tokens := c.prompt_tokens + c.completion_tokens
           , cost_usd := calculate_llm_cost c.provider c.model
               c.prompt_tokens c.completion_tokens
           , request_type := c.request_type, success := c.success
           , error_message := c.error_message }] } := by
  unfold runTrack
  rw [track_gate_passed_eq db c.user_id c.provider c.model c.request_type
    c.prompt_tokens c.completion_tokens c.success c.error_message hq]

lemma runTrack_denied (db : DB) (c : TrackCall)
    (hq : check_user_quota db c.user_id = false) :
    runTrack db c = db := by
  unfold runTrack
  simp [enforce_quota_and_track_usage, hq]

lemma quotaInv_runTrack (db : DB) (c : TrackCall) (h : quotaInv db) :
    quotaInv (runTrack db c) := by
  by_cases hq : check_user_quota db c.user_id = true
  · rw [runTrack_gate_passed db c hq]
    obtain ⟨u, hu, hcase⟩ := (check_user_quota_eq_true db c.user_id).mp hq
    have hu2 : db.users.find? (fun x => x.id == c.user_id) = some u := hu
    intro v hv hvs
    cases hs : c.success with
    | false =>
        rw [hs] at hv
        simp only [Bool.false_eq_true, if_false] at hv
        exact h v hv hvs
    | true =>
        rw [hs] at hv
        simp only [if_true] at hv
        refine forall_mem_updateFirst
          (fun w => w.is_superuser = false → w.usage_count ≤ w.quota)
          db.users c.user_id _ h ?_ v hv hvs
        intro w hw
        rw [hu2] at hw
        injection hw with hw
        subst hw
        intro hws
        rcases hcase with hsup | hlt
        · rw [hsup] at hws; cases hws
        · simp only
          omega
  · rw [runTrack_denied db c (by simpa using hq)]
    exact h

/-- C1: for any starting state in which every non-superuser satisfies
`usage_count ≤ quota`, no single-threaded sequence of `track` calls can
drive any non-superuser's `usage_count` past their `quota`: each call
increments only after the gate confirmed `usage_count < quota`, so the
invariant is preserved. -/
theorem quota_never_exceeded (db : DB) (cs : List TrackCall)
    (h : quotaInv db) : quotaInv (runTracks db cs) := by
  induction cs generalizing db with
  | nil => exact h
  | cons c rest ih => exact ih (runTrack db c) (quotaInv_runTrack db c h)

/-- Witness for C1: three successive successful calls against a quota of 2
leave the invariant intact (the third is denied). -/
theorem quota_never_exceeded_witness :
    quotaInv dbEx ∧ quotaInv (runTracks dbEx [callEx, callEx, callEx]) :=
  ⟨by decide, quota_never_exceeded dbEx [callEx, callEx, callEx] (by decide)⟩

/-- C5: when the quota gate denies the user, the OpenAI, Anthropic and
Gemini `generate_content` clients still return the generated content,
`tokens_used` and `cost_usd` without any error — the boolean from
`enforce_quota_and_track_usage` is discarded — and the state is untouched:
no ledger row is written for the run (and the external call, whose parsed
response is the input here, was already made before the check). -/
theorem generate_content_denied_still_returns (db : DB) (user_id : Nat)
    (model prompt content : String) (resp : LLMResponse)
    (h : check_user_quota db user_id = false) :
    OpenAIClient_generate_content db user_id model resp =
      ((resp.content, resp.prompt_tokens + resp.completion_tokens,
        calculate_llm_cost "openai" model resp.prompt_tokens resp.completion_tokens),
       db) ∧
    AnthropicClient_generate_content db user_id model resp =
      ((resp.content, resp.prompt_tokens + resp.completion_tokens,
        calculate_llm_cost "anthropic" model resp.prompt_tokens resp.completion_tokens),
       db) ∧
    GeminiClient_generate_content db user_id model prompt content =
      ((content, (geminiEstimate prompt content : Int),
        calculate_llm_cost "gemini" model (geminiEstimate prompt content / 2 : Nat)
          (geminiEstimate prompt content / 2 : Nat)),
       db) := by
  refine ⟨?_, ?_, ?_⟩ <;>
    simp [OpenAIClient_generate_content, AnthropicClient_generate_content,
      GeminiClient_generate_content, enforce_quota_and_track_usage, h]

/-- Witness for C5: the exhausted user still gets content, token count and
cost back from each client, with no state change. -/
theorem generate_content_denied_still_returns_witness :
    OpenAIClient_generate_content dbEx 2 "gpt-4" ⟨"hello", 10, 5⟩ =
      (("hello", (10 : Int) + 5, calculate_llm_cost "openai" "gpt-4" 10 5), dbEx) ∧
    AnthropicClient_generate_content dbEx 2 "gpt-4" ⟨"hello", 10, 5⟩ =
      (("hello", (10 : Int) + 5, calculate_llm_cost "anthropic" "gpt-4" 10 5), dbEx) ∧
    GeminiClient_generate_content dbEx 2 "gpt-4" "hi" "hello" =
      (("hello", (geminiEstimate "hi" "hello" : Int),
        calculate_llm_cost "gemini" "gpt-4" (geminiEstimate "hi" "hello" / 2 : Nat)
          (geminiEstimate "hi" "hello" / 2 : Nat)), dbEx) :=
  generate_content_denied_still_returns dbEx 2 "gpt-4" "hi" "hello"
    ⟨"hello", 10, 5⟩ (by decide)

/-- C8 counterexample: the superuser-exempt path does increment
`usage_count`.  The superuser passes the gate on exemption, yet a
successful tracked call raises their count from 5 to 6, contradicting
"never incremented on a superuser-exempt path". -/
theorem superuser_path_increments_counterexample :
    userSup.is_superuser = true ∧
    getUser dbEx 1 = some userSup ∧
    getUser (runTrack dbEx
      { user_id := 1, provider := "openai", model := "gpt-4"
      , request_type := "content_generation", prompt_tokens := 100
      , completion_tokens := 50, success := true, error_message := none }) 1 =
      some { userSup with usage_count := 6 } := by decide

/-- C8 amended: within the accounting subsystem, a user's `usage_count` is
never decremented and changes only as the side effect of a `track` call that
passed the quota gate with `success=true` for that user, in which case it
rises by exactly 1 — including for superusers, whose exempt path still
increments (contrary to the claim); the ledger write itself never touches
the user table. -/
theorem usage_count_changes_only_by_successful_track (db : DB) (c : TrackCall)
    (user_id : Nat) :
    (∀ rec, (create_llm_usage db rec).users = db.users) ∧
    getUser (runTrack db c) user_id =
      (if check_user_quota db c.user_id = true ∧ c.success = true ∧
          c.user_id = user_id then
        Option.map (fun v => { v with usage_count := v.usage_count + 1 })
          (getUser db user_id)
      else getUser db user_id) := by
  refine ⟨fun rec => rfl, ?_⟩
  by_cases hq : check_user_quota db c.user_id = true
  · rw [runTrack_gate_passed db c hq]
    cases hs : c.success with
    | false =>
        rw [if_neg (show ¬(check_user_quota db c.user_id = true ∧ false = true ∧
          c.user_id = user_id) from fun hcond => Bool.false_ne_true hcond.2.1)]
        rfl
    | true =>
        by_cases he : c.user_id = user_id
        · subst he
          rw [if_pos (⟨hq, rfl, rfl⟩ :
            check_user_quota db c.user_id = true ∧ true = true ∧
              c.user_id = c.user_id)]
          show (updateFirst db.users c.user_id
              (fun v => { v with usage_count := v.usage_count + 1 })).find?
              (fun x => x.id == c.user_id) =
            Option.map (fun v => { v with usage_count := v.usage_count + 1 })
              (db.users.find? (fun x => x.id == c.user_id))
          exact find?_updateFirst db.users c.user_id
            (fun v => { v with usage_count := v.usage_count + 1 }) (fun v => rfl)
        · rw [if_neg (show ¬(check_user_quota db c.user_id = true ∧ true = true ∧
            c.user_id = user_id) from fun hcond => he hcond.2.2)]
          show (updateFirst db.users c.user_id
              (fun v => { v with usage_count := v.usage_count + 1 })).find?
              (fun x => x.id == user_id) =
            db.users.find? (fun x => x.id == user_id)
          exact find?_updateFirst_ne db.users user_id c.user_id
            (fun v => { v with usage_count := v.usage_count + 1 })
            (fun v => rfl) (fun hh => he hh.symm)
  · have hq2 : check_user_quota db c.user_id = false := by simpa using hq
    have hcond : ¬(check_user_quota db c.user_id = true ∧ c.success = true ∧
        c.user_id = user_id) := by
      rw [hq2]; simp
    rw [runTrack_denied db c hq2, if_neg hcond]

/-- C9: for a user owning no ledger rows, the usage summary is all zeros
with empty groupings; the embedding is a total function, so no error is
possible (the source's `SUM ... or 0` coercions make the empty case
well-defined). -/
theorem summarize_zero_records (db : DB) (user_id : Nat)
    (h : ∀ r ∈ db.llm_usage, r.user_id ≠ user_id) :
    get_user_llm_usage_summary db user_id =
      { total_requests := 0, total_tokens := 0, total_cost_usd := 0
      , requests_by_provider := [], requests_by_type := [] } := by
  have hfil : db.llm_usage.filter (fun r => r.user_id == user_id) = [] := by
    rw [List.filter_eq_nil_iff]
    intro a ha
    simpa using h a ha
  simp [get_user_llm_usage_summary, hfil, groupCounts, List.eraseDups]
  rfl

/-- A ledger row owned by user 9, used by witnesses. -/
def recOther : LLMUsage :=
  { user_id := 9, provider := "openai", model := "gpt-4", prompt_tokens := 1
  , completion_tokens := 2, total_tokens := 3, cost_usd := 0
  , request_type := "content_generation", success := true, error_message := none }

/-- A state whose ledger holds only `recOther`. -/
def dbLedger : DB := { users := [userFresh], llm_usage := [recOther] }

/-- Witness for C9: summarizing user 0 over a ledger holding only another
user's row yields the all-zero summary. -/
theorem summarize_zero_records_witness :
    get_user_llm_usage_summary dbLedger 0 =
      { total_requests := 0, total_tokens := 0, total_cost_usd := 0
      , requests_by_provider := [], requests_by_type := [] } :=
  summarize_zero_records dbLedger 0 (by decide)

lemma sum_filter_total_tokens (l : List LLMUsage) (user_id : Nat) :
    ((l.filter (fun r => r.user_id == user_id)).map
      (fun r => r.total_tokens)).sum = userTotalTokens l user_id := by
  induction l with
  | nil => rfl
  | cons r rest ih =>
      by_cases h : r.user_id = user_id <;>
        simp [userTotalTokens, List.filter_cons, h, ih]

/-- C10: round-trip between the ledger and the aggregator: the
`total_tokens` field of the summary equals the sum of `total_tokens` over
exactly the ledger rows owned by that user, in every state. -/
theorem summarize_total_tokens_roundtrip (db : DB) (user_id : Nat) :
    (get_user_llm_usage_summary db user_id).total_tokens =
      userTotalTokens db.llm_usage user_id := by
  simpa [get_user_llm_usage_summary] using
    sum_filter_total_tokens db.llm_usage user_id
